import Mathlib

/-!
Shallow embedding of `crates/storage/provider/src/providers/static_file/metrics.rs`:
the static-file provider metrics registry of reth.  Counters are modelled as
natural numbers (total of increments), gauges as exact rationals standing for
the stored `f64` value, and histograms as the list of recorded samples, most
recent first.  `u64 as f64` / `usize as f64` casts are modelled by an explicit
round-to-nearest-even function returning the exact rational value of the
resulting `f64`.
-/

namespace StaticFileMetrics

/-- The static file segments (`StaticFileSegment` from `reth_primitives`),
exactly the variants enumerated by the dispatch matches in `metrics.rs`. -/
inductive StaticFileSegment where
  | headers
  | transactions
  | receipts
deriving DecidableEq

/-- `StaticFileProviderOperation`: the lifecycle operations on a segment. -/
inductive StaticFileProviderOperation where
  | initCursor
  | openWriter
  | append
  | prune
  | incrementBlock
  | commitWriter
deriving DecidableEq

/-- A counter metric handle: its state is the running total of increments.
`Counter.increment(1)` becomes `+ 1`. -/
abbrev Counter := Nat

/-- A gauge metric handle: its state is the latest value passed to `set`,
as the exact rational value of the stored `f64`.  Fresh gauges read 0. -/
abbrev Gauge := ℚ

/-- A histogram metric handle: its state is the list of recorded samples,
most recent first.  Fresh histograms are empty. -/
abbrev Histogram := List ℚ

/-- Number of halvings needed to bring `n` below `2 ^ 53`; this is the
binary ULP exponent of `n` as an `f64`.  The fuel `64` is enough for any
`n < 2 ^ 117`, which covers every `u64` and `usize` input. -/
def ulpExpAux : Nat → Nat → Nat
  | _, 0 => 0
  | m, fuel + 1 => if m < 2 ^ 53 then 0 else ulpExpAux (m / 2) fuel + 1

/-- The ULP exponent of `n` viewed as an `f64` (0 for `n < 2 ^ 53`). -/
def ulpExp (n : Nat) : Nat := ulpExpAux n 64

/-- Rust `as f64` on a nonnegative integer: round to the nearest multiple of
`2 ^ ulpExp n` (the IEEE-754 double spacing at the magnitude of `n`), ties to
even, as performed by the `size as f64` casts in `record_segment`.  Integers
up to `2 ^ 53` are returned unchanged. -/
def roundF64 (n : Nat) : Nat :=
  if n < 2 ^ 53 then n
  else if n % 2 ^ ulpExp n < 2 ^ (ulpExp n - 1) then
    n / 2 ^ ulpExp n * 2 ^ ulpExp n
  else if 2 ^ (ulpExp n - 1) < n % 2 ^ ulpExp n then
    (n / 2 ^ ulpExp n + 1) * 2 ^ ulpExp n
  else if n / 2 ^ ulpExp n % 2 = 0 then
    n / 2 ^ ulpExp n * 2 ^ ulpExp n
  else
    (n / 2 ^ ulpExp n + 1) * 2 ^ ulpExp n

/-- The exact rational value of `n as f64`. -/
def toF64 (n : Nat) : ℚ := (roundF64 n : ℚ)

/-- `std::time::Duration`: whole seconds and subsecond nanoseconds.
(The Rust invariant `nanos < 10 ^ 9` is not needed for these proofs.) -/
structure Duration where
  secs : Nat
  nanos : Nat
deriving DecidableEq

/-- `Duration::as_secs_f64`, modelled as the exact rational number of
seconds represented by the duration. -/
def Duration.as_secs_f64 (d : Duration) : ℚ :=
  (d.secs : ℚ) + (d.nanos : ℚ) / 1000000000

/-- `StaticFileSegmentMetrics` (derive-macro scope `static_files.segment`):
a gauge triple per segment.  A default-constructed instance has every gauge
at 0. -/
structure StaticFileSegmentMetrics where
  headers_size : Gauge := 0
  transactions_size : Gauge := 0
  receipts_size : Gauge := 0
  headers_files : Gauge := 0
  transactions_files : Gauge := 0
  receipts_files : Gauge := 0
  headers_entries : Gauge := 0
  transactions_entries : Gauge := 0
  receipts_entries : Gauge := 0

/-- `StaticFileProviderOperationMetrics` (derive-macro scope
`static_files.jar_provider`): one counter and one histogram per
(segment, operation) pair.  A default-constructed instance has every counter
at 0 and every histogram empty. -/
structure StaticFileProviderOperationMetrics where
  headers_init_cursor_calls_total : Counter := 0
  headers_open_writer_calls_total : Counter := 0
  headers_append_calls_total : Counter := 0
  headers_prune_calls_total : Counter := 0
  headers_increment_block_calls_total : Counter := 0
  headers_commit_writer_calls_total : Counter := 0
  transactions_init_cursor_calls_total : Counter := 0
  transactions_open_writer_calls_total : Counter := 0
  transactions_append_calls_total : Counter := 0
  transactions_prune_calls_total : Counter := 0
  transactions_increment_block_calls_total : Counter := 0
  transactions_commit_writer_calls_total : Counter := 0
  receipts_init_cursor_calls_total : Counter := 0
  receipts_open_writer_calls_total : Counter := 0
  receipts_append_calls_total : Counter := 0
  receipts_prune_calls_total : Counter := 0
  receipts_increment_block_calls_total : Counter := 0
  receipts_commit_writer_calls_total : Counter := 0
  headers_init_cursor_duration_seconds : Histogram := []
  headers_open_writer_duration_seconds : Histogram := []
  headers_append_duration_seconds : Histogram := []
  headers_prune_duration_seconds : Histogram := []
  headers_increment_block_duration_seconds : Histogram := []
  headers_commit_writer_duration_seconds : Histogram := []
  transactions_init_cursor_duration_seconds : Histogram := []
  transactions_open_writer_duration_seconds : Histogram := []
  transactions_append_duration_seconds : Histogram := []
  transactions_prune_duration_seconds : Histogram := []
  transactions_increment_block_duration_seconds : Histogram := []
  transactions_commit_writer_duration_seconds : Histogram := []
  receipts_init_cursor_duration_seconds : Histogram := []
  receipts_open_writer_duration_seconds : Histogram := []
  receipts_append_duration_seconds : Histogram := []
  receipts_prune_duration_seconds : Histogram := []
  receipts_increment_block_duration_seconds : Histogram := []
  receipts_commit_writer_duration_seconds : Histogram := []

/-- `StaticFileProviderMetrics`: the facade owning both metric groups. -/
structure StaticFileProviderMetrics where
  segments : StaticFileSegmentMetrics := {}
  segment_operations : StaticFileProviderOperationMetrics := {}

/-- A freshly constructed registry (`StaticFileProviderMetrics::default()`). -/
def initialMetrics : StaticFileProviderMetrics := {}

/-- `StaticFileProviderMetrics::record_segment`: sets the three gauges of the
given segment to the `as f64` casts of the supplied size, file count and
entry count. -/
def StaticFileProviderMetrics.record_segment (self : StaticFileProviderMetrics)
    (segment : StaticFileSegment) (size : Nat) (files : Nat) (entries : Nat) :
    StaticFileProviderMetrics :=
  match segment with
  | .headers =>
      { self with segments := { self.segments with
          headers_size := toF64 size,
          headers_files := toF64 files,
          headers_entries := toF64 entries } }
  | .transactions =>
      { self with segments := { self.segments with
          transactions_size := toF64 size,
          transactions_files := toF64 files,
          transactions_entries := toF64 entries } }
  | .receipts =>
      { self with segments := { self.segments with
          receipts_size := toF64 size,
          receipts_files := toF64 files,
          receipts_entries := toF64 entries } }

/-- `StaticFileProviderMetrics::record_segment_operation`: the exhaustive
match over `(segment, operation)`; each arm expands the `record_operation!`
macro, incrementing the pair's counter by 1 and, when a duration is present,
recording `duration.as_secs_f64()` into the pair's histogram. -/
def StaticFileProviderMetrics.record_segment_operation
    (self : StaticFileProviderMetrics) (segment : StaticFileSegment)
    (operation : StaticFileProviderOperation) (duration : Option Duration) :
    StaticFileProviderMetrics :=
  match segment, operation with
  | .headers, .initCursor =>
      { self with segment_operations := { self.segment_operations with
          headers_init_cursor_calls_total :=
            self.segment_operations.headers_init_cursor_calls_total + 1,
          headers_init_cursor_duration_seconds :=
            match duration with
            | some d =>
                d.as_secs_f64 :: self.segment_operations.headers_init_cursor_duration_seconds
            | none => self.segment_operations.headers_init_cursor_duration_seconds } }
  | .headers, .openWriter =>
      { self with segment_operations := { self.segment_operations with
          headers_open_writer_calls_total :=
            self.segment_operations.headers_open_writer_calls_total + 1,
          headers_open_writer_duration_seconds :=
            match duration with
            | some d =>
                d.as_secs_f64 :: self.segment_operations.headers_open_writer_duration_seconds
            | none => self.segment_operations.headers_open_writer_duration_seconds } }
  | .headers, .append =>
      { self with segment_operations := { self.segment_operations with
          headers_append_calls_total :=
            self.segment_operations.headers_append_calls_total + 1,
          headers_append_duration_seconds :=
            match duration with
            | some d =>
                d.as_secs_f64 :: self.segment_operations.headers_append_duration_seconds
            | none => self.segment_operations.headers_append_duration_seconds } }
  | .headers, .prune =>
      { self with segment_operations := { self.segment_operations with
          headers_prune_calls_total :=
            self.segment_operations.headers_prune_calls_total + 1,
          headers_prune_duration_seconds :=
            match duration with
            | some d =>
                d.as_secs_f64 :: self.segment_operations.headers_prune_duration_seconds
            | none => self.segment_operations.headers_prune_duration_seconds } }
  | .headers, .incrementBlock =>
      { self with segment_operations := { self.segment_operations with
          headers_increment_block_calls_total :=
            self.segment_operations.headers_increment_block_calls_total + 1,
          headers_increment_block_duration_seconds :=
            match duration with
            | some d =>
                d.as_secs_f64 :: self.segment_operations.headers_increment_block_duration_seconds
            | none => self.segment_operations.headers_increment_block_duration_seconds } }
  | .headers, .commitWriter =>
      { self with segment_operations := { self.segment_operations with
          headers_commit_writer_calls_total :=
            self.segment_operations.headers_commit_writer_calls_total + 1,
          headers_commit_writer_duration_seconds :=
            match duration with
            | some d =>
                d.as_secs_f64 :: self.segment_operations.headers_commit_writer_duration_seconds
            | none => self.segment_operations.headers_commit_writer_duration_seconds } }
  | .transactions, .initCursor =>
      { self with segment_operations := { self.segment_operations with
          transactions_init_cursor_calls_total :=
            self.segment_operations.transactions_init_cursor_calls_total + 1,
          transactions_init_cursor_duration_seconds :=
            match duration with
            | some d =>
                d.as_secs_f64 :: self.segment_operations.transactions_init_cursor_duration_seconds
            | none => self.segment_operations.transactions_init_cursor_duration_seconds } }
  | .transactions, .openWriter =>
      { self with segment_operations := { self.segment_operations with
          transactions_open_writer_calls_total :=
            self.segment_operations.transactions_open_writer_calls_total + 1,
          transactions_open_writer_duration_seconds :=
            match duration with
            | some d =>
                d.as_secs_f64 :: self.segment_operations.transactions_open_writer_duration_seconds
            | none => self.segment_operations.transactions_open_writer_duration_seconds } }
  | .transactions, .append =>
      { self with segment_operations := { self.segment_operations with
          transactions_append_calls_total :=
            self.segment_operations.transactions_append_calls_total + 1,
          transactions_append_duration_seconds :=
            match duration with
            | some d =>
                d.as_secs_f64 :: self.segment_operations.transactions_append_duration_seconds
            | none => self.segment_operations.transactions_append_duration_seconds } }
  | .transactions, .prune =>
      { self with segment_operations := { self.segment_operations with
          transactions_prune_calls_total :=
            self.segment_operations.transactions_prune_calls_total + 1,
          transactions_prune_duration_seconds :=
            match duration with
            | some d =>
                d.as_secs_f64 :: self.segment_operations.transactions_prune_duration_seconds
            | none => self.segment_operations.transactions_prune_duration_seconds } }
  | .transactions, .incrementBlock =>
      { self with segment_operations := { self.segment_operations with
          transactions_increment_block_calls_total :=
            self.segment_operations.transactions_increment_block_calls_total + 1,
          transactions_increment_block_duration_seconds :=
            match duration with
            | some d =>
                d.as_secs_f64 ::
                  self.segment_operations.transactions_increment_block_duration_seconds
            | none => self.segment_operations.transactions_increment_block_duration_seconds } }
  | .transactions, .commitWriter =>
      { self with segment_operations := { self.segment_operations with
          transactions_commit_writer_calls_total :=
            self.segment_operations.transactions_commit_writer_calls_total + 1,
          transactions_commit_writer_duration_seconds :=
            match duration with
            | some d =>
                d.as_secs_f64 :: self.segment_operations.transactions_commit_writer_duration_seconds
            | none => self.segment_operations.transactions_commit_writer_duration_seconds } }
  | .receipts, .initCursor =>
      { self with segment_operations := { self.segment_operations with
          receipts_init_cursor_calls_total :=
            self.segment_operations.receipts_init_cursor_calls_total + 1,
          receipts_init_cursor_duration_seconds :=
            match duration with
            | some d =>
                d.as_secs_f64 :: self.segment_operations.receipts_init_cursor_duration_seconds
            | none => self.segment_operations.receipts_init_cursor_duration_seconds } }
  | .receipts, .openWriter =>
      { self with segment_operations := { self.segment_operations with
          receipts_open_writer_calls_total :=
            self.segment_operations.receipts_open_writer_calls_total + 1,
          receipts_open_writer_duration_seconds :=
            match duration with
            | some d =>
                d.as_secs_f64 :: self.segment_operations.receipts_open_writer_duration_seconds
            | none => self.segment_operations.receipts_open_writer_duration_seconds } }
  | .receipts, .append =>
      { self with segment_operations := { self.segment_operations with
          receipts_append_calls_total :=
            self.segment_operations.receipts_append_calls_total + 1,
          receipts_append_duration_seconds :=
            match duration with
            | some d =>
                d.as_secs_f64 :: self.segment_operations.receipts_append_duration_seconds
            | none => self.segment_operations.receipts_append_duration_seconds } }
  | .receipts, .prune =>
      { self with segment_operations := { self.segment_operations with
          receipts_prune_calls_total :=
            self.segment_operations.receipts_prune_calls_total + 1,
          receipts_prune_duration_seconds :=
            match duration with
            | some d =>
                d.as_secs_f64 :: self.segment_operations.receipts_prune_duration_seconds
            | none => self.segment_operations.receipts_prune_duration_seconds } }
  | .receipts, .incrementBlock =>
      { self with segment_operations := { self.segment_operations with
          receipts_increment_block_calls_total :=
            self.segment_operations.receipts_increment_block_calls_total + 1,
          receipts_increment_block_duration_seconds :=
            match duration with
            | some d =>
                d.as_secs_f64 :: self.segment_operations.receipts_increment_block_duration_seconds
            | none => self.segment_operations.receipts_increment_block_duration_seconds } }
  | .receipts, .commitWriter =>
      { self with segment_operations := { self.segment_operations with
          receipts_commit_writer_calls_total :=
            self.segment_operations.receipts_commit_writer_calls_total + 1,
          receipts_commit_writer_duration_seconds :=
            match duration with
            | some d =>
                d.as_secs_f64 :: self.segment_operations.receipts_commit_writer_duration_seconds
            | none => self.segment_operations.receipts_commit_writer_duration_seconds } }

/-- The counter field of the operation-metrics struct belonging to a
(segment, operation) pair, as wired by the dispatch match. -/
def counterOf (m : StaticFileProviderOperationMetrics) :
    StaticFileSegment → StaticFileProviderOperation → Counter
  | .headers, .initCursor => m.headers_init_cursor_calls_total
  | .headers, .openWriter => m.headers_open_writer_calls_total
  | .headers, .append => m.headers_append_calls_total
  | .headers, .prune => m.headers_prune_calls_total
  | .headers, .incrementBlock => m.headers_increment_block_calls_total
  | .headers, .commitWriter => m.headers_commit_writer_calls_total
  | .transactions, .initCursor => m.transactions_init_cursor_calls_total
  | .transactions, .openWriter => m.transactions_open_writer_calls_total
  | .transactions, .append => m.transactions_append_calls_total
  | .transactions, .prune => m.transactions_prune_calls_total
  | .transactions, .incrementBlock => m.transactions_increment_block_calls_total
  | .transactions, .commitWriter => m.transactions_commit_writer_calls_total
  | .receipts, .initCursor => m.receipts_init_cursor_calls_total
  | .receipts, .openWriter => m.receipts_open_writer_calls_total
  | .receipts, .append => m.receipts_append_calls_total
  | .receipts, .prune => m.receipts_prune_calls_total
  | .receipts, .incrementBlock => m.receipts_increment_block_calls_total
  | .receipts, .commitWriter => m.receipts_commit_writer_calls_total

/-- The histogram field of the operation-metrics struct belonging to a
(segment, operation) pair, as wired by the dispatch match. -/
def histogramOf (m : StaticFileProviderOperationMetrics) :
    StaticFileSegment → StaticFileProviderOperation → Histogram
  | .headers, .initCursor => m.headers_init_cursor_duration_seconds
  | .headers, .openWriter => m.headers_open_writer_duration_seconds
  | .headers, .append => m.headers_append_duration_seconds
  | .headers, .prune => m.headers_prune_duration_seconds
  | .headers, .incrementBlock => m.headers_increment_block_duration_seconds
  | .headers, .commitWriter => m.headers_commit_writer_duration_seconds
  | .transactions, .initCursor => m.transactions_init_cursor_duration_seconds
  | .transactions, .openWriter => m.transactions_open_writer_duration_seconds
  | .transactions, .append => m.transactions_append_duration_seconds
  | .transactions, .prune => m.transactions_prune_duration_seconds
  | .transactions, .incrementBlock => m.transactions_increment_block_duration_seconds
  | .transactions, .commitWriter => m.transactions_commit_writer_duration_seconds
  | .receipts, .initCursor => m.receipts_init_cursor_duration_seconds
  | .receipts, .openWriter => m.receipts_open_writer_duration_seconds
  | .receipts, .append => m.receipts_append_duration_seconds
  | .receipts, .prune => m.receipts_prune_duration_seconds
  | .receipts, .incrementBlock => m.receipts_increment_block_duration_seconds
  | .receipts, .commitWriter => m.receipts_commit_writer_duration_seconds

/-- The size gauge belonging to a segment. -/
def sizeGaugeOf (m : StaticFileSegmentMetrics) : StaticFileSegment → Gauge
  | .headers => m.headers_size
  | .transactions => m.transactions_size
  | .receipts => m.receipts_size

/-- The file-count gauge belonging to a segment. -/
def filesGaugeOf (m : StaticFileSegmentMetrics) : StaticFileSegment → Gauge
  | .headers => m.headers_files
  | .transactions => m.transactions_files
  | .receipts => m.receipts_files

/-- The entry-count gauge belonging to a segment. -/
def entriesGaugeOf (m : StaticFileSegmentMetrics) : StaticFileSegment → Gauge
  | .headers => m.headers_entries
  | .transactions => m.transactions_entries
  | .receipts => m.receipts_entries

/-- The counter for a (segment, operation) pair in the full registry. -/
def counterFor (m : StaticFileProviderMetrics) (s : StaticFileSegment)
    (o : StaticFileProviderOperation) : Counter :=
  counterOf m.segment_operations s o

/-- The histogram for a (segment, operation) pair in the full registry. -/
def histogramFor (m : StaticFileProviderMetrics) (s : StaticFileSegment)
    (o : StaticFileProviderOperation) : Histogram :=
  histogramOf m.segment_operations s o

/-- The size gauge for a segment in the full registry. -/
def sizeFor (m : StaticFileProviderMetrics) (s : StaticFileSegment) : Gauge :=
  sizeGaugeOf m.segments s

/-- The file-count gauge for a segment in the full registry. -/
def filesFor (m : StaticFileProviderMetrics) (s : StaticFileSegment) : Gauge :=
  filesGaugeOf m.segments s

/-- The entry-count gauge for a segment in the full registry. -/
def entriesFor (m : StaticFileProviderMetrics) (s : StaticFileSegment) : Gauge :=
  entriesGaugeOf m.segments s

/-- The segments in source order (the reference enumeration). -/
def allSegments : List StaticFileSegment := [.headers, .transactions, .receipts]

/-- The operations in source order (`EnumIter` order of
`StaticFileProviderOperation`). -/
def allOperations : List StaticFileProviderOperation :=
  [.initCursor, .openWriter, .append, .prune, .incrementBlock, .commitWriter]

/-- The name of the counter field assigned to a (segment, operation) pair by
the struct declaration and the dispatch match. -/
def counterFieldName : StaticFileSegment → StaticFileProviderOperation → String
  | .headers, .initCursor => "headers_init_cursor_calls_total"
  | .headers, .openWriter => "headers_open_writer_calls_total"
  | .headers, .append => "headers_append_calls_total"
  | .headers, .prune => "headers_prune_calls_total"
  | .headers, .incrementBlock => "headers_increment_block_calls_total"
  | .headers, .commitWriter => "headers_commit_writer_calls_total"
  | .transactions, .initCursor => "transactions_init_cursor_calls_total"
  | .transactions, .openWriter => "transactions_open_writer_calls_total"
  | .transactions, .append => "transactions_append_calls_total"
  | .transactions, .prune => "transactions_prune_calls_total"
  | .transactions, .incrementBlock => "transactions_increment_block_calls_total"
  | .transactions, .commitWriter => "transactions_commit_writer_calls_total"
  | .receipts, .initCursor => "receipts_init_cursor_calls_total"
  | .receipts, .openWriter => "receipts_open_writer_calls_total"
  | .receipts, .append => "receipts_append_calls_total"
  | .receipts, .prune => "receipts_prune_calls_total"
  | .receipts, .incrementBlock => "receipts_increment_block_calls_total"
  | .receipts, .commitWriter => "receipts_commit_writer_calls_total"

/-- The name of the histogram field assigned to a (segment, operation) pair by
the struct declaration and the dispatch match. -/
def histogramFieldName : StaticFileSegment → StaticFileProviderOperation → String
  | .headers, .initCursor => "headers_init_cursor_duration_seconds"
  | .headers, .openWriter => "headers_open_writer_duration_seconds"
  | .headers, .append => "headers_append_duration_seconds"
  | .headers, .prune => "headers_prune_duration_seconds"
  | .headers, .incrementBlock => "headers_increment_block_duration_seconds"
  | .headers, .commitWriter => "headers_commit_writer_duration_seconds"
  | .transactions, .initCursor => "transactions_init_cursor_duration_seconds"
  | .transactions, .openWriter => "transactions_open_writer_duration_seconds"
  | .transactions, .append => "transactions_append_duration_seconds"
  | .transactions, .prune => "transactions_prune_duration_seconds"
  | .transactions, .incrementBlock => "transactions_increment_block_duration_seconds"
  | .transactions, .commitWriter => "transactions_commit_writer_duration_seconds"
  | .receipts, .initCursor => "receipts_init_cursor_duration_seconds"
  | .receipts, .openWriter => "receipts_open_writer_duration_seconds"
  | .receipts, .append => "receipts_append_duration_seconds"
  | .receipts, .prune => "receipts_prune_duration_seconds"
  | .receipts, .incrementBlock => "receipts_increment_block_duration_seconds"
  | .receipts, .commitWriter => "receipts_commit_writer_duration_seconds"

/-- The name of the size gauge field of a segment. -/
def sizeGaugeFieldName : StaticFileSegment → String
  | .headers => "headers_size"
  | .transactions => "transactions_size"
  | .receipts => "receipts_size"

/-- The name of the file-count gauge field of a segment. -/
def filesGaugeFieldName : StaticFileSegment → String
  | .headers => "headers_files"
  | .transactions => "transactions_files"
  | .receipts => "receipts_files"

/-- The name of the entry-count gauge field of a segment. -/
def entriesGaugeFieldName : StaticFileSegment → String
  | .headers => "headers_entries"
  | .transactions => "transactions_entries"
  | .receipts => "receipts_entries"

/-- The derive-macro scope of the segment-size gauges. -/
def segmentMetricsScope : String := "static_files.segment"

/-- The derive-macro scope of the per-operation counters and histograms. -/
def operationMetricsScope : String := "static_files.jar_provider"

/-- Modelled from the spec naming convention: the token a segment contributes
to metric names. -/
def specSegmentToken : StaticFileSegment → String
  | .headers => "headers"
  | .transactions => "transactions"
  | .receipts => "receipts"

/-- Modelled from the spec naming convention: the token an operation
contributes to metric names. -/
def specOperationToken : StaticFileProviderOperation → String
  | .initCursor => "init_cursor"
  | .openWriter => "open_writer"
  | .append => "append"
  | .prune => "prune"
  | .incrementBlock => "increment_block"
  | .commitWriter => "commit_writer"

lemma counterFor_rso_self (m : StaticFileProviderMetrics) (s : StaticFileSegment)
    (o : StaticFileProviderOperation) (d : Option Duration) :
    counterFor (m.record_segment_operation s o d) s o = counterFor m s o + 1 := by
  cases s <;> cases o <;> rfl

lemma counterFor_rso_other (m : StaticFileProviderMetrics) (s : StaticFileSegment)
    (o : StaticFileProviderOperation) (d : Option Duration)
    (s' : StaticFileSegment) (o' : StaticFileProviderOperation)
    (h : ¬(s = s' ∧ o = o')) :
    counterFor (m.record_segment_operation s o d) s' o' = counterFor m s' o' := by
  cases s <;> cases o <;> cases s' <;> cases o' <;>
    first
      | rfl
      | exact absurd ⟨rfl, rfl⟩ h

lemma histogramFor_rso_none (m : StaticFileProviderMetrics) (s : StaticFileSegment)
    (o : StaticFileProviderOperation) (s' : StaticFileSegment)
    (o' : StaticFileProviderOperation) :
    histogramFor (m.record_segment_operation s o none) s' o' = histogramFor m s' o' := by
  cases s <;> cases o <;> cases s' <;> cases o' <;> rfl

lemma histogramFor_rso_some_self (m : StaticFileProviderMetrics)
    (s : StaticFileSegment) (o : StaticFileProviderOperation) (d : Duration) :
    histogramFor (m.record_segment_operation s o (some d)) s o =
      d.as_secs_f64 :: histogramFor m s o := by
  cases s <;> cases o <;> rfl

lemma histogramFor_rso_some_other (m : StaticFileProviderMetrics)
    (s : StaticFileSegment) (o : StaticFileProviderOperation) (d : Duration)
    (s' : StaticFileSegment) (o' : StaticFileProviderOperation)
    (h : ¬(s = s' ∧ o = o')) :
    histogramFor (m.record_segment_operation s o (some d)) s' o' =
      histogramFor m s' o' := by
  cases s <;> cases o <;> cases s' <;> cases o' <;>
    first
      | rfl
      | exact absurd ⟨rfl, rfl⟩ h

lemma rso_segments (m : StaticFileProviderMetrics) (s : StaticFileSegment)
    (o : StaticFileProviderOperation) (d : Option Duration) :
    (m.record_segment_operation s o d).segments = m.segments := by
  cases s <;> cases o <;> rfl

lemma rs_segment_operations (m : StaticFileProviderMetrics) (s : StaticFileSegment)
    (a b c : Nat) :
    (m.record_segment s a b c).segment_operations = m.segment_operations := by
  cases s <;> rfl

lemma rs_gauges_self (m : StaticFileProviderMetrics) (s : StaticFileSegment)
    (a b c : Nat) :
    sizeFor (m.record_segment s a b c) s = toF64 a ∧
      filesFor (m.record_segment s a b c) s = toF64 b ∧
      entriesFor (m.record_segment s a b c) s = toF64 c := by
  cases s <;> exact ⟨rfl, rfl, rfl⟩

lemma rs_gauges_other (m : StaticFileProviderMetrics) (s : StaticFileSegment)
    (a b c : Nat) (s' : StaticFileSegment) (h : s ≠ s') :
    sizeFor (m.record_segment s a b c) s' = sizeFor m s' ∧
      filesFor (m.record_segment s a b c) s' = filesFor m s' ∧
      entriesFor (m.record_segment s a b c) s' = entriesFor m s' := by
  cases s <;> cases s' <;>
    first
      | exact absurd rfl h
      | exact ⟨rfl, rfl, rfl⟩

lemma counterFor_initial (s : StaticFileSegment) (o : StaticFileProviderOperation) :
    counterFor initialMetrics s o = 0 := by
  cases s <;> cases o <;> rfl

lemma counterFor_foldl (ds : List (Option Duration)) (m : StaticFileProviderMetrics)
    (s : StaticFileSegment) (o : StaticFileProviderOperation) :
    counterFor (ds.foldl (fun acc dd => acc.record_segment_operation s o dd) m) s o =
      counterFor m s o + ds.length := by
  induction ds generalizing m with
  | nil => rfl
  | cons hd tl ih =>
      rw [List.foldl_cons, ih, counterFor_rso_self, List.length_cons]
      ring

lemma counterFor_rso_initial (s : StaticFileSegment) (o : StaticFileProviderOperation)
    (s' : StaticFileSegment) (o' : StaticFileProviderOperation) :
    counterFor (initialMetrics.record_segment_operation s o none) s' o' =
      if s = s' ∧ o = o' then 1 else 0 := by
  cases s <;> cases o <;> cases s' <;> cases o' <;> rfl

lemma histogramFor_rso_initial (s : StaticFileSegment) (o : StaticFileProviderOperation)
    (s' : StaticFileSegment) (o' : StaticFileProviderOperation) :
    histogramFor (initialMetrics.record_segment_operation s o (some ⟨1, 0⟩)) s' o' =
      if s = s' ∧ o = o' then [Duration.as_secs_f64 ⟨1, 0⟩] else [] := by
  cases s <;> cases o <;> cases s' <;> cases o' <;> rfl

lemma counter_separating (s : StaticFileSegment) (o : StaticFileProviderOperation)
    (s' : StaticFileSegment) (o' : StaticFileProviderOperation)
    (h : ∀ m, counterFor m s o = counterFor m s' o') : s = s' ∧ o = o' := by
  have h1 := h (initialMetrics.record_segment_operation s' o' none)
  rw [counterFor_rso_initial s' o' s o, counterFor_rso_initial s' o' s' o'] at h1
  rw [if_pos (⟨rfl, rfl⟩ : s' = s' ∧ o' = o')] at h1
  by_cases hc : s' = s ∧ o' = o
  · exact ⟨hc.1.symm, hc.2.symm⟩
  · rw [if_neg hc] at h1
    exact absurd h1 (by decide)

lemma histogram_separating (s : StaticFileSegment) (o : StaticFileProviderOperation)
    (s' : StaticFileSegment) (o' : StaticFileProviderOperation)
    (h : ∀ m, histogramFor m s o = histogramFor m s' o') : s = s' ∧ o = o' := by
  have h1 := h (initialMetrics.record_segment_operation s' o' (some ⟨1, 0⟩))
  rw [histogramFor_rso_initial s' o' s o, histogramFor_rso_initial s' o' s' o'] at h1
  rw [if_pos (⟨rfl, rfl⟩ : s' = s' ∧ o' = o')] at h1
  by_cases hc : s' = s ∧ o' = o
  · exact ⟨hc.1.symm, hc.2.symm⟩
  · rw [if_neg hc] at h1
    exact absurd h1 (by simp)

lemma ulpExpAux_succ (m fuel : Nat) :
    ulpExpAux m (fuel + 1) = if m < 2 ^ 53 then 0 else ulpExpAux (m / 2) fuel + 1 := rfl

lemma ulpExp_pos (n : Nat) (h : 2 ^ 53 ≤ n) : 1 ≤ ulpExp n := by
  have h64 : (64 : Nat) = 63 + 1 := rfl
  rw [ulpExp, h64, ulpExpAux_succ, if_neg (by omega)]
  omega

lemma roundF64_exact (n : Nat) (h : n ≤ 2 ^ 53) : roundF64 n = n := by
  rcases Nat.lt_or_ge n (2 ^ 53) with hlt | hge
  · rw [roundF64, if_pos hlt]
  · have hn : n = 2 ^ 53 := Nat.le_antisymm h hge
    subst hn
    decide

lemma roundF64_near (n : Nat) (h : 2 ^ 53 ≤ n) :
    roundF64 n ≤ n + 2 ^ (ulpExp n - 1) ∧ n ≤ roundF64 n + 2 ^ (ulpExp n - 1) := by
  have he : 1 ≤ ulpExp n := ulpExp_pos n h
  have h2 : 2 ^ ulpExp n = 2 * 2 ^ (ulpExp n - 1) := by
    calc 2 ^ ulpExp n = 2 ^ (ulpExp n - 1 + 1) := by rw [Nat.sub_add_cancel he]
    _ = 2 * 2 ^ (ulpExp n - 1) := by rw [pow_succ]; ring
  have hdm : 2 ^ ulpExp n * (n / 2 ^ ulpExp n) + n % 2 ^ ulpExp n = n :=
    Nat.div_add_mod n (2 ^ ulpExp n)
  have hrlt : n % 2 ^ ulpExp n < 2 ^ ulpExp n :=
    Nat.mod_lt n (pow_pos (by norm_num) _)
  have hcomm : n / 2 ^ ulpExp n * 2 ^ ulpExp n = 2 ^ ulpExp n * (n / 2 ^ ulpExp n) :=
    Nat.mul_comm _ _
  have hsucc : (n / 2 ^ ulpExp n + 1) * 2 ^ ulpExp n =
      2 ^ ulpExp n * (n / 2 ^ ulpExp n) + 2 ^ ulpExp n := by ring
  rw [roundF64, if_neg (by omega)]
  split_ifs with hb1 hb2 hb3 <;> constructor <;> omega

/-- Claim C1: every call to `record_segment_operation (s, o, duration)`
increments the counter of (s, o) by exactly 1, whether the duration is
present or absent; and starting from a freshly constructed registry, after
N calls for (s, o) with any durations the counter for (s, o) reads
exactly N. -/
theorem claim_C1 :
    (∀ (m : StaticFileProviderMetrics) (s : StaticFileSegment)
        (o : StaticFileProviderOperation) (d : Option Duration),
      counterFor (m.record_segment_operation s o d) s o = counterFor m s o + 1) ∧
    (∀ (s : StaticFileSegment) (o : StaticFileProviderOperation)
        (ds : List (Option Duration)),
      counterFor
          (ds.foldl (fun acc dd => acc.record_segment_operation s o dd) initialMetrics)
          s o =
        ds.length) := by
  refine ⟨counterFor_rso_self, ?_⟩
  intro s o ds
  rw [counterFor_foldl, counterFor_initial, Nat.zero_add]

/-- Claim C2: `record_segment_operation` with an absent duration leaves every
histogram unchanged; with a present duration `d` it records exactly
`d.as_secs_f64()` into the histogram of its own (segment, operation) pair and
into no other histogram. -/
theorem claim_C2 :
    (∀ (m : StaticFileProviderMetrics) (s : StaticFileSegment)
        (o : StaticFileProviderOperation) (s' : StaticFileSegment)
        (o' : StaticFileProviderOperation),
      histogramFor (m.record_segment_operation s o none) s' o' =
        histogramFor m s' o') ∧
    (∀ (m : StaticFileProviderMetrics) (s : StaticFileSegment)
        (o : StaticFileProviderOperation) (d : Duration),
      histogramFor (m.record_segment_operation s o (some d)) s o =
        d.as_secs_f64 :: histogramFor m s o) ∧
    (∀ (m : StaticFileProviderMetrics) (s : StaticFileSegment)
        (o : StaticFileProviderOperation) (d : Duration)
        (s' : StaticFileSegment) (o' : StaticFileProviderOperation),
      ¬(s' = s ∧ o' = o) →
      histogramFor (m.record_segment_operation s o (some d)) s' o' =
        histogramFor m s' o') := by
  refine ⟨histogramFor_rso_none, histogramFor_rso_some_self, ?_⟩
  intro m s o d s' o' h
  exact histogramFor_rso_some_other m s o d s' o' (fun hc => h ⟨hc.1.symm, hc.2.symm⟩)

/-- Witness for claim C2 at a concrete input: recording a 12 ms Headers/Append
duration leaves the Transactions/Append histogram unchanged. -/
theorem claim_C2_witness :
    histogramFor
        (initialMetrics.record_segment_operation .headers .append
          (some ⟨0, 12000000⟩)) .transactions .append =
      histogramFor initialMetrics .transactions .append :=
  claim_C2.2.2 initialMetrics .headers .append ⟨0, 12000000⟩ .transactions .append
    (by decide)

/-- Claim C3: `record_segment` overwrites the three gauges of the given
segment with the (f64-converted) supplied snapshot; calling it twice with the
same snapshot is the same as calling it once, and after two calls only the
second call's values remain. -/
theorem claim_C3 :
    ∀ (m : StaticFileProviderMetrics) (s : StaticFileSegment)
      (a b c a' b' c' : Nat),
    (sizeFor (m.record_segment s a b c) s = toF64 a ∧
      filesFor (m.record_segment s a b c) s = toF64 b ∧
      entriesFor (m.record_segment s a b c) s = toF64 c) ∧
    ((m.record_segment s a b c).record_segment s a b c = m.record_segment s a b c) ∧
    ((m.record_segment s a b c).record_segment s a' b' c' =
      m.record_segment s a' b' c') := by
  intro m s a b c a' b' c'
  refine ⟨rs_gauges_self m s a b c, ?_, ?_⟩ <;> cases s <;> rfl

/-- Claim C4: the dispatch of `record_segment_operation` is total over all 18
(segment, operation) pairs — each call increments its own pair's counter — and
injective: two pairs with the same counter (or histogram) projection are the
same pair, and a call for one pair never updates the counter or histogram of
a different pair. -/
theorem claim_C4 :
    (∀ (m : StaticFileProviderMetrics) (s : StaticFileSegment)
        (o : StaticFileProviderOperation) (d : Option Duration),
      counterFor (m.record_segment_operation s o d) s o = counterFor m s o + 1) ∧
    (∀ (s : StaticFileSegment) (o : StaticFileProviderOperation)
        (s' : StaticFileSegment) (o' : StaticFileProviderOperation),
      (∀ m, counterFor m s o = counterFor m s' o') → s = s' ∧ o = o') ∧
    (∀ (s : StaticFileSegment) (o : StaticFileProviderOperation)
        (s' : StaticFileSegment) (o' : StaticFileProviderOperation),
      (∀ m, histogramFor m s o = histogramFor m s' o') → s = s' ∧ o = o') ∧
    (∀ (m : StaticFileProviderMetrics) (s : StaticFileSegment)
        (o : StaticFileProviderOperation) (d : Option Duration)
        (s' : StaticFileSegment) (o' : StaticFileProviderOperation),
      ¬(s = s' ∧ o = o') →
      counterFor (m.record_segment_operation s o d) s' o' = counterFor m s' o' ∧
        histogramFor (m.record_segment_operation s o d) s' o' =
          histogramFor m s' o') ∧
    (allSegments.product allOperations).length = 18 := by
  refine ⟨counterFor_rso_self, counter_separating, histogram_separating, ?_, by decide⟩
  intro m s o d s' o' h
  refine ⟨counterFor_rso_other m s o d s' o' h, ?_⟩
  cases d with
  | none => exact histogramFor_rso_none m s o s' o'
  | some dd => exact histogramFor_rso_some_other m s o dd s' o' h

/-- Witness for claim C4 at concrete inputs: the separation hypotheses hold
for equal pairs, and a Headers/Append call leaves the Transactions/Append
counter and histogram unchanged. -/
theorem claim_C4_witness :
    (StaticFileSegment.headers = StaticFileSegment.headers ∧
      StaticFileProviderOperation.append = StaticFileProviderOperation.append) ∧
    (StaticFileSegment.receipts = StaticFileSegment.receipts ∧
      StaticFileProviderOperation.prune = StaticFileProviderOperation.prune) ∧
    (counterFor (initialMetrics.record_segment_operation .headers .append none)
        .transactions .append =
      counterFor initialMetrics .transactions .append ∧
      histogramFor (initialMetrics.record_segment_operation .headers .append none)
          .transactions .append =
        histogramFor initialMetrics .transactions .append) :=
  ⟨claim_C4.2.1 .headers .append .headers .append (fun _ => rfl),
    claim_C4.2.2.1 .receipts .prune .receipts .prune (fun _ => rfl),
    claim_C4.2.2.2.1 initialMetrics .headers .append none .transactions .append
      (by decide)⟩

/-- Claim C5: for distinct segments s and s', recording a size or an
operation for s leaves every gauge, counter and histogram belonging to s'
unchanged. -/
theorem claim_C5 :
    ∀ (m : StaticFileProviderMetrics) (s s' : StaticFileSegment)
      (a b c : Nat) (o o' : StaticFileProviderOperation) (d : Option Duration),
    s ≠ s' →
    (sizeFor (m.record_segment s a b c) s' = sizeFor m s' ∧
      filesFor (m.record_segment s a b c) s' = filesFor m s' ∧
      entriesFor (m.record_segment s a b c) s' = entriesFor m s') ∧
    (counterFor (m.record_segment s a b c) s' o' = counterFor m s' o' ∧
      histogramFor (m.record_segment s a b c) s' o' = histogramFor m s' o') ∧
    (sizeFor (m.record_segment_operation s o d) s' = sizeFor m s' ∧
      filesFor (m.record_segment_operation s o d) s' = filesFor m s' ∧
      entriesFor (m.record_segment_operation s o d) s' = entriesFor m s') ∧
    (counterFor (m.record_segment_operation s o d) s' o' = counterFor m s' o' ∧
      histogramFor (m.record_segment_operation s o d) s' o' =
        histogramFor m s' o') := by
  intro m s s' a b c o o' d h
  refine ⟨rs_gauges_other m s a b c s' h, ⟨?_, ?_⟩, ⟨?_, ?_, ?_⟩, ⟨?_, ?_⟩⟩
  · unfold counterFor
    rw [rs_segment_operations]
  · unfold histogramFor
    rw [rs_segment_operations]
  · unfold sizeFor
    rw [rso_segments]
  · unfold filesFor
    rw [rso_segments]
  · unfold entriesFor
    rw [rso_segments]
  · exact counterFor_rso_other m s o d s' o' (fun hc => h hc.1)
  · cases d with
    | none => exact histogramFor_rso_none m s o s' o'
    | some dd => exact histogramFor_rso_some_other m s o dd s' o' (fun hc => h hc.1)

/-- Witness for claim C5 at a concrete input: a Headers size record leaves
the Transactions size gauge unchanged. -/
theorem claim_C5_witness :
    sizeFor (initialMetrics.record_segment .headers 100 2 50) .transactions =
      sizeFor initialMetrics .transactions :=
  (claim_C5 initialMetrics .headers .transactions 100 2 50 .append .append none
    (by decide)).1.1

/-- A 12 millisecond duration. -/
def d12 : Duration := ⟨0, 12000000⟩

/-- The end-to-end example run of the spec: from a fresh registry, three
Headers/Append calls with a 12 ms duration followed by one without. -/
def exampleRun : StaticFileProviderMetrics :=
  (((initialMetrics.record_segment_operation .headers .append
        (some d12)).record_segment_operation .headers .append
      (some d12)).record_segment_operation .headers .append
    (some d12)).record_segment_operation .headers .append none

/-- Claim C6: after three Headers/Append calls with 12 ms and one without,
the Headers/Append counter reads 4, the Headers/Append histogram holds
exactly three samples of 0.012 seconds, and the Transactions/Append counter
reads 0. -/
theorem claim_C6 :
    counterFor exampleRun .headers .append = 4 ∧
    histogramFor exampleRun .headers .append = [(0.012 : ℚ), 0.012, 0.012] ∧
    counterFor exampleRun .transactions .append = 0 := by
  refine ⟨rfl, ?_, rfl⟩
  have h : histogramFor exampleRun .headers .append =
      [d12.as_secs_f64, d12.as_secs_f64, d12.as_secs_f64] := rfl
  rw [h]
  norm_num [d12, Duration.as_secs_f64]

/-- Claim C7: every metric field name follows the naming convention
segment-token, operation-token, kind suffix, and the gauges live under a
scope distinct from the one of the per-operation counters and histograms. -/
theorem claim_C7 :
    ∀ (s : StaticFileSegment) (o : StaticFileProviderOperation),
    counterFieldName s o =
      specSegmentToken s ++ "_" ++ specOperationToken o ++ "_calls_total" ∧
    histogramFieldName s o =
      specSegmentToken s ++ "_" ++ specOperationToken o ++ "_duration_seconds" ∧
    sizeGaugeFieldName s = specSegmentToken s ++ "_size" ∧
    filesGaugeFieldName s = specSegmentToken s ++ "_files" ∧
    entriesGaugeFieldName s = specSegmentToken s ++ "_entries" ∧
    segmentMetricsScope ≠ operationMetricsScope := by
  intro s o
  cases s <;> cases o <;> exact ⟨rfl, rfl, rfl, rfl, rfl, by decide⟩

/-- Claim C9: the two metric groups are mutually isolated —
`record_segment_operation` never changes the gauge group and `record_segment`
never changes the counter/histogram group. -/
theorem claim_C9 :
    (∀ (m : StaticFileProviderMetrics) (s : StaticFileSegment)
        (o : StaticFileProviderOperation) (d : Option Duration),
      (m.record_segment_operation s o d).segments = m.segments) ∧
    (∀ (m : StaticFileProviderMetrics) (s : StaticFileSegment) (a b c : Nat),
      (m.record_segment s a b c).segment_operations = m.segment_operations) :=
  ⟨rso_segments, rs_segment_operations⟩

/-- Counterexample to claim C10 as stated: the input 2 ^ 54 exceeds 2 ^ 53,
yet `record_segment` stores it into the size gauge exactly. -/
theorem claim_C10_counterexample :
    sizeFor (initialMetrics.record_segment .headers (2 ^ 54) 0 0) .headers =
      ((2 ^ 54 : Nat) : ℚ) ∧ ¬((2 ^ 54 : Nat) ≤ 2 ^ 53) := by
  constructor
  · show toF64 (2 ^ 54) = ((2 ^ 54 : Nat) : ℚ)
    decide
  · decide

/-- Claim C10 (amended): `record_segment` stores the f64 conversion of each
input; the stored value equals the integer input whenever the input is at
most 2 ^ 53, and every input at least 2 ^ 53 is rounded to a nearest
representable f64 — within half of the f64 spacing `2 ^ ulpExp` at its
magnitude. -/
theorem claim_C10_amended :
    ∀ (m : StaticFileProviderMetrics) (s : StaticFileSegment) (a b c : Nat),
    sizeFor (m.record_segment s a b c) s = toF64 a ∧
    filesFor (m.record_segment s a b c) s = toF64 b ∧
    entriesFor (m.record_segment s a b c) s = toF64 c ∧
    (a ≤ 2 ^ 53 → toF64 a = (a : ℚ)) ∧
    (2 ^ 53 ≤ a →
      roundF64 a ≤ a + 2 ^ (ulpExp a - 1) ∧ a ≤ roundF64 a + 2 ^ (ulpExp a - 1)) := by
  intro m s a b c
  obtain ⟨h1, h2, h3⟩ := rs_gauges_self m s a b c
  refine ⟨h1, h2, h3, ?_, roundF64_near a⟩
  intro ha
  rw [toF64, roundF64_exact a ha]

/-- Witness for the amended claim C10 at concrete inputs: 2 ^ 53 is stored
exactly, and 2 ^ 53 + 1 is rounded within half a ULP. -/
theorem claim_C10_witness :
    toF64 (2 ^ 53) = ((2 ^ 53 : Nat) : ℚ) ∧
    (roundF64 (2 ^ 53 + 1) ≤ (2 ^ 53 + 1) + 2 ^ (ulpExp (2 ^ 53 + 1) - 1) ∧
      (2 ^ 53 + 1) ≤ roundF64 (2 ^ 53 + 1) + 2 ^ (ulpExp (2 ^ 53 + 1) - 1)) :=
  ⟨(claim_C10_amended initialMetrics .headers (2 ^ 53) 0 0).2.2.2.1 (by decide),
    (claim_C10_amended initialMetrics .headers (2 ^ 53 + 1) 0 0).2.2.2.2 (by decide)⟩

end StaticFileMetrics
